import Mathlib

/-!
IntelliBuild CI: the webhook pipeline.

A shallow embedding of the Go sources `webhook/webhook.go`, `ci/build.go`,
`ci/test.go`, `ci/clone.go`, `Docker/build.go` and `Docker/scan.go`.

Modelling conventions.

* Go `string` values are Lean `String`s (the token `repoURL` is ASCII, so it occurs in a
  UTF-8 text as bytes exactly when it occurs as characters); `fmt.Sprintf("%s/x", dir)` is `dir ++ "/x"`,
  `fmt.Sprintf("...: %v", err)` is `"...: " ++ e` where `e` is the text of the error.
* A Go `error` is `Option String`: `none` is `nil`, `some e` is an error whose text is `e`.
* The operating system is a parameter `World σ`: `stat` says whether `os.Stat` succeeds on a
  path in state `σ`, `run` gives the effect and the result of `(*exec.Cmd).Run`.
* Every function that may start processes returns a `Res σ`: the state it leaves, the
  commands it ran (in order) and its error result.
* `time.Now().Unix()` is the parameter `now`.
-/

set_option autoImplicit false

/-! ## Strings -/

/-- The Go library function `strings.Contains(s, substr)` on character lists: `substr`
occurs in `s` at some offset. -/
def strings.containsChars : List Char → List Char → Bool
  | [], substr => substr.isEmpty
  | c :: cs, substr => substr.isPrefixOf (c :: cs) || strings.containsChars cs substr

/-- The Go library function `strings.Contains(s, substr)`. -/
def strings.Contains (s substr : String) : Bool :=
  strings.containsChars s.data substr.data

/-! ## webhook/webhook.go: `parseRepoURL` -/

/-- Source `parseRepoURL` (webhook/webhook.go:76-83). -/
def webhook.parseRepoURL (payload : String) : String :=
  if strings.Contains payload "repoURL" then
    "https://github.com/user/repo.git"
  else
    ""

/-! ## The operating system and the HTTP types -/

/-- A prepared `*exec.Cmd`: the program and arguments given to `exec.Command` and the field
`cmd.Dir` (the empty string when the source leaves it unset). Every command of the sources
has `Stdout` and `Stderr` set to those of the service, so they are not recorded. -/
structure Cmd where
  name : String
  args : List String
  dir : String
  deriving DecidableEq

/-- The environment the service runs in, over an abstract state `σ` (file system, network,
installed tools). `stat s p = true` iff `os.Stat(p)` returns a `nil` error in state `s`;
`run s c` is the state after `c.Run()` together with the error it returns. -/
structure World (σ : Type) where
  stat : σ → String → Bool
  run : σ → Cmd → σ × Option String

/-- What a pipeline function leaves behind: the state, the commands it ran and its error. -/
structure Res (σ : Type) where
  state : σ
  cmds : List Cmd
  err : Option String

/-- The method call `cmd.Run()`. -/
def Cmd.Run {σ : Type} (W : World σ) (cmd : Cmd) (s : σ) : Res σ :=
  ⟨(W.run s cmd).1, [cmd], (W.run s cmd).2⟩

/-- An HTTP response as the handler produces it: status code and body. -/
structure Response where
  status : Nat
  body : String
  deriving DecidableEq

/-- The library function `http.Error(w, msg, code)`: writes the status `code` and the line
`msg` followed by a newline. -/
def http.Error (msg : String) (code : Nat) : Response :=
  ⟨code, msg ++ "\n"⟩

/-- The part of `*http.Request` the handler reads: the method and the result of
`io.ReadAll(r.Body)` (`.ok` the bytes read, `.error` a failed read). -/
structure Request where
  method : String
  body : Except String String

/-! ## ci/clone.go -/

/-- Source `CloneRepository` (ci/clone.go:9-14). -/
def ci.CloneRepository {σ : Type} (W : World σ) (repoURL dir : String) (s : σ) : Res σ :=
  Cmd.Run W ⟨"git", ["clone", repoURL, dir], ""⟩ s

/-! ## ci/build.go -/

/-- Source `BuildProject` (ci/build.go:10-56). -/
def ci.BuildProject {σ : Type} (W : World σ) (dir : String) (s : σ) : Res σ :=
  if W.stat s (dir ++ "/go.mod") then
    Cmd.Run W ⟨"go", ["build", "./..."], dir⟩ s
  else if W.stat s (dir ++ "/Makefile") then
    Cmd.Run W ⟨"make", [], dir⟩ s
  else if W.stat s (dir ++ "/requirements.txt") then
    Cmd.Run W ⟨"python", ["setup.py", "install"], dir⟩ s
  else if W.stat s (dir ++ "/setup.py") then
    Cmd.Run W ⟨"python", ["setup.py", "install"], dir⟩ s
  else if W.stat s (dir ++ "/package.json") then
    Cmd.Run W ⟨"npm", ["install"], dir⟩ s
  else
    ⟨s, [], some "unsupported language or build system"⟩

/-! ## ci/test.go -/

/-- Source `RunTests` (ci/test.go:10-49). -/
def ci.RunTests {σ : Type} (W : World σ) (dir : String) (s : σ) : Res σ :=
  if W.stat s (dir ++ "/go.mod") then
    Cmd.Run W ⟨"go", ["test", "./..."], dir⟩ s
  else if W.stat s (dir ++ "/Makefile") then
    Cmd.Run W ⟨"make", ["test"], dir⟩ s
  else if W.stat s (dir ++ "/requirements.txt") then
    Cmd.Run W ⟨"pytest", [], dir⟩ s
  else if W.stat s (dir ++ "/package.json") then
    Cmd.Run W ⟨"npm", ["test"], dir⟩ s
  else
    ⟨s, [], some "no test command available for this project"⟩

/-! ## Docker/build.go and Docker/scan.go -/

/-- Source `BuildDockerImage` (Docker/build.go:10-24). -/
def docker.BuildDockerImage {σ : Type} (W : World σ) (dir : String) (s : σ) : Res σ :=
  if W.stat s (dir ++ "/Dockerfile") = false then
    ⟨s, [], some "Dockerfile not found"⟩
  else
    let imageName := "myapp:latest"
    let r := Cmd.Run W ⟨"docker", ["build", "-t", imageName, dir], ""⟩ s
    match r.err with
    | some err => ⟨r.state, r.cmds, some ("failed to build Docker image: " ++ err)⟩
    | none => ⟨r.state, r.cmds, none⟩

/-- Source `RunTrivyScan` (Docker/scan.go:10-18). -/
def docker.RunTrivyScan {σ : Type} (W : World σ) (imageName : String) (s : σ) : Res σ :=
  let r := Cmd.Run W ⟨"trivy", ["image", "--no-progress", imageName], ""⟩ s
  match r.err with
  | some err => ⟨r.state, r.cmds, some ("Trivy scan failed: " ++ err)⟩
  | none => ⟨r.state, r.cmds, none⟩

/-! ## webhook/webhook.go: `WebhookHandler` -/

/-- The five functions the handler calls, as values: the handler is written once over any
implementation of them, and `pipelineStages` supplies the ones of this repository. -/
structure Stages (σ : Type) where
  CloneRepository : String → String → σ → Res σ
  BuildProject : String → σ → Res σ
  RunTests : String → σ → Res σ
  BuildDockerImage : String → σ → Res σ
  RunTrivyScan : String → σ → Res σ

/-- The stage functions of the repository, over the environment `W`. -/
def pipelineStages {σ : Type} (W : World σ) : Stages σ where
  CloneRepository := ci.CloneRepository W
  BuildProject := ci.BuildProject W
  RunTests := ci.RunTests W
  BuildDockerImage := docker.BuildDockerImage W
  RunTrivyScan := docker.RunTrivyScan W

/-- A call of a stage function by the handler, with its arguments. -/
inductive StageCall where
  | CloneRepository (repoURL dir : String)
  | BuildProject (dir : String)
  | RunTests (dir : String)
  | BuildDockerImage (dir : String)
  | RunTrivyScan (imageName : String)
  deriving DecidableEq

/-- One run of the handler: the response written, the stage calls made (in order), the
commands run by those calls (in order) and the final state. -/
structure Outcome (σ : Type) where
  resp : Response
  calls : List StageCall
  cmds : List Cmd
  state : σ

/-- Source `WebhookHandler` (webhook/webhook.go:17-73). `now` is `time.Now().Unix()`. -/
def webhook.WebhookHandler {σ : Type} (S : Stages σ) (now : Int) (r : Request) (s : σ) :
    Outcome σ :=
  if r.method ≠ "POST" then
    ⟨http.Error "Invalid request method" 405, [], [], s⟩
  else
    match r.body with
    | .error _ => ⟨http.Error "Error reading request body" 500, [], [], s⟩
    | .ok body =>
      let payload := body
      let repoURL := webhook.parseRepoURL payload
      if repoURL = "" then
        ⟨http.Error "Repository URL not found" 400, [], [], s⟩
      else
        let dir := "/tmp/repo-" ++ toString now
        let r1 := S.CloneRepository repoURL dir s
        match r1.err with
        | some err =>
          ⟨http.Error ("Error cloning repository: " ++ err) 500,
            [.CloneRepository repoURL dir], r1.cmds, r1.state⟩
        | none =>
          let r2 := S.BuildProject dir r1.state
          match r2.err with
          | some err =>
            ⟨http.Error ("Build failed: " ++ err) 500,
              [.CloneRepository repoURL dir, .BuildProject dir],
              r1.cmds ++ r2.cmds, r2.state⟩
          | none =>
            let r3 := S.RunTests dir r2.state
            match r3.err with
            | some err =>
              ⟨http.Error ("Tests failed: " ++ err) 500,
                [.CloneRepository repoURL dir, .BuildProject dir, .RunTests dir],
                r1.cmds ++ r2.cmds ++ r3.cmds, r3.state⟩
            | none =>
              let r4 := S.BuildDockerImage dir r3.state
              match r4.err with
              | some err =>
                ⟨http.Error ("Docker build failed: " ++ err) 500,
                  [.CloneRepository repoURL dir, .BuildProject dir, .RunTests dir,
                    .BuildDockerImage dir],
                  r1.cmds ++ r2.cmds ++ r3.cmds ++ r4.cmds, r4.state⟩
              | none =>
                let r5 := S.RunTrivyScan "myapp:latest" r4.state
                match r5.err with
                | some err =>
                  ⟨http.Error ("Trivy scan failed: " ++ err) 500,
                    [.CloneRepository repoURL dir, .BuildProject dir, .RunTests dir,
                      .BuildDockerImage dir, .RunTrivyScan "myapp:latest"],
                    r1.cmds ++ r2.cmds ++ r3.cmds ++ r4.cmds ++ r5.cmds, r5.state⟩
                | none =>
                  ⟨⟨200, "CI/CD pipeline executed successfully"⟩,
                    [.CloneRepository repoURL dir, .BuildProject dir, .RunTests dir,
                      .BuildDockerImage dir, .RunTrivyScan "myapp:latest"],
                    r1.cmds ++ r2.cmds ++ r3.cmds ++ r4.cmds ++ r5.cmds, r5.state⟩

/-! ## A file-system fixture

A small concrete environment for evaluating the functions: the state is the list of paths
that exist; `git clone` creates the files `cloned` under the target directory; a command whose
command line is listed in `failing` returns `exit status 1`, every other command succeeds. -/

/-- The fixture environment described above. -/
def fixtureWorld (cloned : List String) (failing : List (List String)) :
    World (List String) where
  stat s p := s.contains p
  run s c :=
    if failing.contains (c.name :: c.args) then (s, some "exit status 1")
    else
      match c.name, c.args with
      | "git", [_, _, dir] => (s ++ cloned.map (fun f => dir ++ "/" ++ f), none)
      | _, _ => (s, none)

/-- The request used in the examples: a POST whose body is a JSON object with the key
`repoURL`. -/
def fixtureRequest : Request :=
  ⟨"POST", .ok "\x7b\"repoURL\":\"https://example.org/demo.git\"\x7d"⟩

/-! ## Specification-side vocabulary

The definitions below are not taken from the sources: they phrase the documented behaviour
(stages in order, first failure, marker priority) so that it can be compared with the code. -/

/-- The working directory the handler derives from the clock. -/
def workDir (now : Int) : String :=
  "/tmp/repo-" ++ toString now

/-- The documented pipeline: clone, build, test, docker build, scan. -/
def pipeline (now : Int) : List StageCall :=
  [.CloneRepository "https://github.com/user/repo.git" (workDir now),
   .BuildProject (workDir now),
   .RunTests (workDir now),
   .BuildDockerImage (workDir now),
   .RunTrivyScan "myapp:latest"]

/-- Performing one stage call with the stage functions `S`. -/
def Stages.exec {σ : Type} (S : Stages σ) : StageCall → σ → Res σ
  | .CloneRepository repoURL dir => S.CloneRepository repoURL dir
  | .BuildProject dir => S.BuildProject dir
  | .RunTests dir => S.RunTests dir
  | .BuildDockerImage dir => S.BuildDockerImage dir
  | .RunTrivyScan imageName => S.RunTrivyScan imageName

/-- Running the listed calls one after the other from state `s`, each in the state its
predecessor left: the position of the first call that returns an error, with the error text;
`none` when every call succeeds. -/
def firstFailure {σ : Type} (S : Stages σ) : List StageCall → σ → Option (Nat × String)
  | [], _ => none
  | c :: cs, s =>
    match (S.exec c s).err with
    | some e => some (0, e)
    | none => (firstFailure S cs (S.exec c s).state).map (fun p => (p.1 + 1, p.2))

/-- The text of the 500 response when the stage at position `k` fails with error `e`. -/
def failureMessage (k : Nat) (e : String) : String :=
  match k with
  | 0 => "Error cloning repository: " ++ e
  | 1 => "Build failed: " ++ e
  | 2 => "Tests failed: " ++ e
  | 3 => "Docker build failed: " ++ e
  | _ => "Trivy scan failed: " ++ e

/-- Stage functions that ignore the state and their arguments and answer from a fixed table
`out` (position of the stage to its error, if any). -/
def oracleStages (out : Nat → Option String) : Stages Unit where
  CloneRepository _ _ _ := ⟨(), [], out 0⟩
  BuildProject _ _ := ⟨(), [], out 1⟩
  RunTests _ _ := ⟨(), [], out 2⟩
  BuildDockerImage _ _ := ⟨(), [], out 3⟩
  RunTrivyScan _ _ := ⟨(), [], out 4⟩

/-- The marker files of the build-system detection. -/
inductive Marker where
  | goMod
  | makefile
  | requirementsTxt
  | setupPy
  | packageJson
  deriving DecidableEq

/-- The file name of a marker. -/
def Marker.file : Marker → String
  | .goMod => "go.mod"
  | .makefile => "Makefile"
  | .requirementsTxt => "requirements.txt"
  | .setupPy => "setup.py"
  | .packageJson => "package.json"

/-- The documented priority of a marker: a smaller rank is checked earlier. -/
def Marker.rank : Marker → Nat
  | .goMod => 0
  | .makefile => 1
  | .requirementsTxt => 2
  | .setupPy => 3
  | .packageJson => 4

/-- The documented build command of a marker, to be run in directory `dir`. -/
def Marker.buildCommand (dir : String) : Marker → Cmd
  | .goMod => ⟨"go", ["build", "./..."], dir⟩
  | .makefile => ⟨"make", [], dir⟩
  | .requirementsTxt => ⟨"python", ["setup.py", "install"], dir⟩
  | .setupPy => ⟨"python", ["setup.py", "install"], dir⟩
  | .packageJson => ⟨"npm", ["install"], dir⟩

/-- Whether the marker file exists in directory `dir` in state `s`. -/
def Marker.present {σ : Type} (W : World σ) (s : σ) (dir : String) (m : Marker) : Bool :=
  W.stat s (dir ++ "/" ++ m.file)

/-- The toolchains of the documentation. -/
inductive Toolchain where
  | Go
  | Make
  | Python
  | Node
  deriving DecidableEq

/-- The toolchain a command belongs to, by its program. -/
def Toolchain.ofCmd (c : Cmd) : Option Toolchain :=
  if c.name = "go" then some .Go
  else if c.name = "make" then some .Make
  else if c.name = "python" ∨ c.name = "pytest" then some .Python
  else if c.name = "npm" then some .Node
  else none

/-- The state after performing the listed calls one after the other from `s`. -/
def stateAfter {σ : Type} (S : Stages σ) : List StageCall → σ → σ
  | [], s => s
  | c :: cs, s => stateAfter S cs (S.exec c s).state

/-- The commands run by performing the listed calls one after the other from `s`, each call
in the state its predecessor left, in order. -/
def cmdsAfter {σ : Type} (S : Stages σ) : List StageCall → σ → List Cmd
  | [], _ => []
  | c :: cs, s => (S.exec c s).cmds ++ cmdsAfter S cs (S.exec c s).state

/-! ## Lemmas on strings -/

theorem strings.containsChars_iff (s substr : List Char) :
    strings.containsChars s substr = true ↔ substr <:+: s := by
  induction s with
  | nil =>
    cases substr <;> simp [strings.containsChars]
  | cons c cs ih =>
    simp only [strings.containsChars, Bool.or_eq_true, ih, List.isPrefixOf_iff_prefix,
      List.infix_cons_iff]

theorem strings.Contains_iff (s substr : String) :
    strings.Contains s substr = true ↔ substr.data <:+: s.data :=
  strings.containsChars_iff s.data substr.data

theorem webhook.parseRepoURL_of_contains (payload : String)
    (h : "repoURL".data <:+: payload.data) :
    webhook.parseRepoURL payload = "https://github.com/user/repo.git" := by
  simp [webhook.parseRepoURL, (strings.Contains_iff payload "repoURL").mpr h]

theorem webhook.parseRepoURL_of_not_contains (payload : String)
    (h : ¬ "repoURL".data <:+: payload.data) :
    webhook.parseRepoURL payload = "" := by
  have hc : strings.Contains payload "repoURL" = false := by
    rw [← Bool.not_eq_true, strings.Contains_iff]
    exact h
  simp [webhook.parseRepoURL, hc]

/-! ## The handler on a POST request that carries the marker -/

/-- C1. For any stage functions, on a POST request whose body contains `repoURL`: if the
stage at position `k` of the pipeline clone, build, test, docker build, scan is the first
to fail, with error `e`, then the response is 500 with the body naming that stage followed
by `e`, the stage calls made are exactly the first `k + 1` calls of the pipeline, and the
state left and the commands run are exactly those of performing these `k + 1` calls in
order: nothing of a later stage is run. -/
theorem webhook.WebhookHandler_first_failure {σ : Type} (S : Stages σ) (now : Int)
    (r : Request) (payload : String) (s : σ) (k : Nat) (e : String)
    (hm : r.method = "POST") (hb : r.body = .ok payload)
    (hc : "repoURL".data <:+: payload.data)
    (hfail : firstFailure S (pipeline now) s = some (k, e)) :
    (webhook.WebhookHandler S now r s).resp = ⟨500, failureMessage k e ++ "\n"⟩ ∧
    (webhook.WebhookHandler S now r s).calls = (pipeline now).take (k + 1) ∧
    k < 5 ∧
    (webhook.WebhookHandler S now r s).state =
      stateAfter S ((pipeline now).take (k + 1)) s ∧
    (webhook.WebhookHandler S now r s).cmds =
      cmdsAfter S ((pipeline now).take (k + 1)) s := by
  have hurl := webhook.parseRepoURL_of_contains payload hc
  simp only [firstFailure, pipeline, Stages.exec, workDir] at hfail
  simp only [webhook.WebhookHandler, hm, hb, hurl, pipeline, workDir]
  repeat' split
  all_goals simp_all [failureMessage, http.Error]
  all_goals (obtain ⟨rfl, rfl⟩ := hfail; simp [stateAfter, cmdsAfter, Stages.exec])

/-- C2. For any stage functions, on a POST request whose body contains `repoURL`: if no
stage of the pipeline fails, the response is 200 with the confirmation body, the stage
calls made are clone, build, test, docker build, scan, each once and in that order, and
the state left and the commands run are exactly those of performing these five calls one
after the other, each in the state its predecessor left. -/
theorem webhook.WebhookHandler_all_succeed {σ : Type} (S : Stages σ) (now : Int)
    (r : Request) (payload : String) (s : σ)
    (hm : r.method = "POST") (hb : r.body = .ok payload)
    (hc : "repoURL".data <:+: payload.data)
    (hok : firstFailure S (pipeline now) s = none) :
    (webhook.WebhookHandler S now r s).resp = ⟨200, "CI/CD pipeline executed successfully"⟩ ∧
    (webhook.WebhookHandler S now r s).calls =
      [.CloneRepository "https://github.com/user/repo.git" ("/tmp/repo-" ++ toString now),
       .BuildProject ("/tmp/repo-" ++ toString now),
       .RunTests ("/tmp/repo-" ++ toString now),
       .BuildDockerImage ("/tmp/repo-" ++ toString now),
       .RunTrivyScan "myapp:latest"] ∧
    (webhook.WebhookHandler S now r s).state =
      (S.RunTrivyScan "myapp:latest"
        (S.BuildDockerImage (workDir now)
          (S.RunTests (workDir now)
            (S.BuildProject (workDir now)
              (S.CloneRepository "https://github.com/user/repo.git" (workDir now)
                s).state).state).state).state).state ∧
    (webhook.WebhookHandler S now r s).state = stateAfter S (pipeline now) s ∧
    (webhook.WebhookHandler S now r s).cmds = cmdsAfter S (pipeline now) s := by
  have hurl := webhook.parseRepoURL_of_contains payload hc
  simp only [firstFailure, pipeline, Stages.exec, workDir] at hok
  simp only [webhook.WebhookHandler, hm, hb, hurl, pipeline, workDir, stateAfter, cmdsAfter,
    Stages.exec]
  repeat' split
  all_goals simp_all

/-- For stage functions that answer from a fixed table, the first failure is at position
`k` with error `e` exactly when the table has `e` at `k` and nothing before `k`. -/
theorem firstFailure_oracleStages (out : Nat → Option String) (now : Int) (k : Nat)
    (e : String) :
    firstFailure (oracleStages out) (pipeline now) () = some (k, e) ↔
      k < 5 ∧ out k = some e ∧ ∀ j, j < k → out j = none := by
  simp only [firstFailure, pipeline, Stages.exec, oracleStages]
  constructor
  · intro h
    repeat' split at h
    all_goals simp_all
    all_goals obtain ⟨rfl, rfl⟩ := h
    all_goals refine ⟨by omega, ?_⟩
    all_goals intro j hj
    all_goals interval_cases j <;> assumption
  · rintro ⟨hk, he, hj⟩
    interval_cases k
    all_goals simp_all

/-- Witness for C1: the fixture repository has `go.mod` and a `Dockerfile` and its test
command exits non-zero; the response is 500 naming the test stage, the calls stop there and
the only commands run are the clone, the build and the test. -/
theorem webhook.WebhookHandler_first_failure_witness :
    (webhook.WebhookHandler
        (pipelineStages (fixtureWorld ["go.mod", "Dockerfile"] [["go", "test", "./..."]]))
        0 fixtureRequest []).resp = ⟨500, "Tests failed: exit status 1\n"⟩ ∧
    (webhook.WebhookHandler
        (pipelineStages (fixtureWorld ["go.mod", "Dockerfile"] [["go", "test", "./..."]]))
        0 fixtureRequest []).calls =
      [.CloneRepository "https://github.com/user/repo.git" "/tmp/repo-0",
       .BuildProject "/tmp/repo-0", .RunTests "/tmp/repo-0"] ∧
    (webhook.WebhookHandler
        (pipelineStages (fixtureWorld ["go.mod", "Dockerfile"] [["go", "test", "./..."]]))
        0 fixtureRequest []).state = ["/tmp/repo-0/go.mod", "/tmp/repo-0/Dockerfile"] ∧
    (webhook.WebhookHandler
        (pipelineStages (fixtureWorld ["go.mod", "Dockerfile"] [["go", "test", "./..."]]))
        0 fixtureRequest []).cmds =
      [⟨"git", ["clone", "https://github.com/user/repo.git", "/tmp/repo-0"], ""⟩,
       ⟨"go", ["build", "./..."], "/tmp/repo-0"⟩,
       ⟨"go", ["test", "./..."], "/tmp/repo-0"⟩] := by
  have h := webhook.WebhookHandler_first_failure
    (pipelineStages (fixtureWorld ["go.mod", "Dockerfile"] [["go", "test", "./..."]]))
    0 fixtureRequest "\x7b\"repoURL\":\"https://example.org/demo.git\"\x7d" [] 2
    "exit status 1" rfl rfl (by decide) (by decide)
  exact ⟨h.1, h.2.1, h.2.2.2.1.trans (by decide), h.2.2.2.2.trans (by decide)⟩

/-- Witness for C2: the fixture repository has `go.mod` and a `Dockerfile` and every command
succeeds; the response is 200, all five stages are called once, in order, and the commands
run are the five of the pipeline. -/
theorem webhook.WebhookHandler_all_succeed_witness :
    (webhook.WebhookHandler (pipelineStages (fixtureWorld ["go.mod", "Dockerfile"] []))
        0 fixtureRequest []).resp = ⟨200, "CI/CD pipeline executed successfully"⟩ ∧
    (webhook.WebhookHandler (pipelineStages (fixtureWorld ["go.mod", "Dockerfile"] []))
        0 fixtureRequest []).calls =
      [.CloneRepository "https://github.com/user/repo.git" "/tmp/repo-0",
       .BuildProject "/tmp/repo-0", .RunTests "/tmp/repo-0",
       .BuildDockerImage "/tmp/repo-0", .RunTrivyScan "myapp:latest"] ∧
    (webhook.WebhookHandler (pipelineStages (fixtureWorld ["go.mod", "Dockerfile"] []))
        0 fixtureRequest []).state = ["/tmp/repo-0/go.mod", "/tmp/repo-0/Dockerfile"] ∧
    (webhook.WebhookHandler (pipelineStages (fixtureWorld ["go.mod", "Dockerfile"] []))
        0 fixtureRequest []).cmds =
      [⟨"git", ["clone", "https://github.com/user/repo.git", "/tmp/repo-0"], ""⟩,
       ⟨"go", ["build", "./..."], "/tmp/repo-0"⟩,
       ⟨"go", ["test", "./..."], "/tmp/repo-0"⟩,
       ⟨"docker", ["build", "-t", "myapp:latest", "/tmp/repo-0"], ""⟩,
       ⟨"trivy", ["image", "--no-progress", "myapp:latest"], ""⟩] := by
  have h := webhook.WebhookHandler_all_succeed
    (pipelineStages (fixtureWorld ["go.mod", "Dockerfile"] []))
    0 fixtureRequest "\x7b\"repoURL\":\"https://example.org/demo.git\"\x7d" []
    rfl rfl (by decide) (by decide)
  exact ⟨h.1, h.2.1, h.2.2.2.1.trans (by decide), h.2.2.2.2.trans (by decide)⟩

/-! ## Requests the handler rejects -/

/-- C5. For any stage functions and any request whose method is not `POST`, whatever its
body: the response is 405 with the line `Invalid request method`, no stage is called, no
command is run and the state is unchanged. -/
theorem webhook.WebhookHandler_method_not_allowed {σ : Type} (S : Stages σ) (now : Int)
    (r : Request) (s : σ) (hm : r.method ≠ "POST") :
    (webhook.WebhookHandler S now r s).resp = ⟨405, "Invalid request method\n"⟩ ∧
    (webhook.WebhookHandler S now r s).calls = [] ∧
    (webhook.WebhookHandler S now r s).cmds = [] ∧
    (webhook.WebhookHandler S now r s).state = s := by
  simp [webhook.WebhookHandler, hm, http.Error]

/-- Witness for C5: a GET request whose body carries the marker, against the fixture. -/
theorem webhook.WebhookHandler_method_not_allowed_witness :
    (webhook.WebhookHandler (pipelineStages (fixtureWorld ["go.mod", "Dockerfile"] []))
        0 ⟨"GET", .ok "repoURL"⟩ []).resp = ⟨405, "Invalid request method\n"⟩ ∧
    (webhook.WebhookHandler (pipelineStages (fixtureWorld ["go.mod", "Dockerfile"] []))
        0 ⟨"GET", .ok "repoURL"⟩ []).calls = [] ∧
    (webhook.WebhookHandler (pipelineStages (fixtureWorld ["go.mod", "Dockerfile"] []))
        0 ⟨"GET", .ok "repoURL"⟩ []).cmds = [] ∧
    (webhook.WebhookHandler (pipelineStages (fixtureWorld ["go.mod", "Dockerfile"] []))
        0 ⟨"GET", .ok "repoURL"⟩ []).state = [] :=
  webhook.WebhookHandler_method_not_allowed
    (pipelineStages (fixtureWorld ["go.mod", "Dockerfile"] [])) 0 ⟨"GET", .ok "repoURL"⟩ []
    (by decide)

/-- C6. For any stage functions and any POST request whose body does not contain
`repoURL`: the response is 400 with the line `Repository URL not found`, no stage is called
(so nothing is cloned), no command is run and the state is unchanged. -/
theorem webhook.WebhookHandler_bad_request {σ : Type} (S : Stages σ) (now : Int)
    (r : Request) (payload : String) (s : σ)
    (hm : r.method = "POST") (hb : r.body = .ok payload)
    (hc : ¬ "repoURL".data <:+: payload.data) :
    (webhook.WebhookHandler S now r s).resp = ⟨400, "Repository URL not found\n"⟩ ∧
    (webhook.WebhookHandler S now r s).calls = [] ∧
    (webhook.WebhookHandler S now r s).cmds = [] ∧
    (webhook.WebhookHandler S now r s).state = s := by
  have hurl := webhook.parseRepoURL_of_not_contains payload hc
  simp [webhook.WebhookHandler, hm, hb, hurl, http.Error]

/-- Witness for C6: a POST request whose body spells the key `repoUrl`, against the
fixture. -/
theorem webhook.WebhookHandler_bad_request_witness :
    (webhook.WebhookHandler (pipelineStages (fixtureWorld ["go.mod", "Dockerfile"] []))
        0 ⟨"POST", .ok "\x7b\"repoUrl\":\"x\"\x7d"⟩ []).resp =
      ⟨400, "Repository URL not found\n"⟩ ∧
    (webhook.WebhookHandler (pipelineStages (fixtureWorld ["go.mod", "Dockerfile"] []))
        0 ⟨"POST", .ok "\x7b\"repoUrl\":\"x\"\x7d"⟩ []).calls = [] ∧
    (webhook.WebhookHandler (pipelineStages (fixtureWorld ["go.mod", "Dockerfile"] []))
        0 ⟨"POST", .ok "\x7b\"repoUrl\":\"x\"\x7d"⟩ []).cmds = [] ∧
    (webhook.WebhookHandler (pipelineStages (fixtureWorld ["go.mod", "Dockerfile"] []))
        0 ⟨"POST", .ok "\x7b\"repoUrl\":\"x\"\x7d"⟩ []).state = [] :=
  webhook.WebhookHandler_bad_request
    (pipelineStages (fixtureWorld ["go.mod", "Dockerfile"] [])) 0
    ⟨"POST", .ok "\x7b\"repoUrl\":\"x\"\x7d"⟩ "\x7b\"repoUrl\":\"x\"\x7d" []
    rfl rfl (by decide)

/-! ## `parseRepoURL` -/

/-- C9. `parseRepoURL` returns the fixed URL when the payload contains `repoURL` and the
empty string otherwise; for two payloads that both contain the token it returns the same
URL, the handler behaves identically on them, and on a POST the first call is the clone of
that fixed URL. -/
theorem webhook.parseRepoURL_substring_check {σ : Type} (S : Stages σ) (now : Int)
    (method p1 p2 : String) (s : σ) :
    (webhook.parseRepoURL p1 =
      if "repoURL".data <:+: p1.data then "https://github.com/user/repo.git" else "") ∧
    ("repoURL".data <:+: p1.data → "repoURL".data <:+: p2.data →
      webhook.parseRepoURL p1 = webhook.parseRepoURL p2 ∧
      webhook.WebhookHandler S now ⟨method, .ok p1⟩ s =
        webhook.WebhookHandler S now ⟨method, .ok p2⟩ s ∧
      (webhook.WebhookHandler S now ⟨"POST", .ok p1⟩ s).calls.head? =
        some (.CloneRepository "https://github.com/user/repo.git"
          ("/tmp/repo-" ++ toString now))) := by
  refine ⟨?_, ?_⟩
  · by_cases h : "repoURL".data <:+: p1.data
    · simp [h, webhook.parseRepoURL_of_contains]
    · simp [h, webhook.parseRepoURL_of_not_contains]
  · intro h1 h2
    have e1 := webhook.parseRepoURL_of_contains p1 h1
    have e2 := webhook.parseRepoURL_of_contains p2 h2
    refine ⟨by rw [e1, e2], by simp only [webhook.WebhookHandler, e1, e2], ?_⟩
    simp only [webhook.WebhookHandler, e1]
    repeat' split
    all_goals simp_all

/-- Witness for C9: two different payloads with the token reach the same clone call. -/
theorem webhook.parseRepoURL_substring_check_witness :
    webhook.parseRepoURL "repoURL=a" = webhook.parseRepoURL "xx repoURL yy" ∧
    webhook.WebhookHandler (pipelineStages (fixtureWorld ["go.mod"] [])) 0
        ⟨"POST", .ok "repoURL=a"⟩ [] =
      webhook.WebhookHandler (pipelineStages (fixtureWorld ["go.mod"] [])) 0
        ⟨"POST", .ok "xx repoURL yy"⟩ [] ∧
    (webhook.WebhookHandler (pipelineStages (fixtureWorld ["go.mod"] [])) 0
        ⟨"POST", .ok "repoURL=a"⟩ []).calls.head? =
      some (.CloneRepository "https://github.com/user/repo.git" ("/tmp/repo-" ++ toString (0 : Int))) :=
  (webhook.parseRepoURL_substring_check (pipelineStages (fixtureWorld ["go.mod"] [])) 0
    "POST" "repoURL=a" "xx repoURL yy" []).2 (by decide) (by decide)

/-! ## Build-system detection -/

theorem Marker.present_eq {σ : Type} (W : World σ) (s : σ) (dir : String) :
    Marker.present W s dir .goMod = W.stat s (dir ++ "/go.mod") ∧
    Marker.present W s dir .makefile = W.stat s (dir ++ "/Makefile") ∧
    Marker.present W s dir .requirementsTxt = W.stat s (dir ++ "/requirements.txt") ∧
    Marker.present W s dir .setupPy = W.stat s (dir ++ "/setup.py") ∧
    Marker.present W s dir .packageJson = W.stat s (dir ++ "/package.json") := by
  simp only [Marker.present, Marker.file, String.append_assoc]
  exact ⟨rfl, rfl, rfl, rfl, rfl⟩

/-- C3. For every directory and state: if marker `m` is present and every marker that comes
before it in the order go.mod, Makefile, requirements.txt, setup.py, package.json is absent,
then `BuildProject` runs exactly one command, the build command of `m`, with the working
directory set to the directory, and returns what that command returns. -/
theorem ci.BuildProject_first_marker {σ : Type} (W : World σ) (dir : String) (s : σ)
    (m : Marker) (hp : m.present W s dir = true)
    (hfirst : ∀ m0 : Marker, m0.rank < m.rank → m0.present W s dir = false) :
    ci.BuildProject W dir s = Cmd.Run W (m.buildCommand dir) s ∧
    (ci.BuildProject W dir s).cmds = [m.buildCommand dir] ∧
    (m.buildCommand dir).dir = dir := by
  obtain ⟨e0, e1, e2, e3, e4⟩ := Marker.present_eq W s dir
  have h0 := hfirst .goMod
  have h1 := hfirst .makefile
  have h2 := hfirst .requirementsTxt
  have h3 := hfirst .setupPy
  rw [e0] at h0
  rw [e1] at h1
  rw [e2] at h2
  rw [e3] at h3
  cases m
  all_goals simp only [Marker.rank] at h0 h1 h2 h3
  all_goals simp_all [ci.BuildProject, Marker.buildCommand, Cmd.Run]

/-- Witness for C3: a directory holding both `go.mod` and `Makefile` dispatches only
`go build ./...`. -/
theorem ci.BuildProject_first_marker_witness :
    ci.BuildProject (fixtureWorld [] []) "/repo" ["/repo/Makefile", "/repo/go.mod"] =
      Cmd.Run (fixtureWorld [] []) ⟨"go", ["build", "./..."], "/repo"⟩
        ["/repo/Makefile", "/repo/go.mod"] ∧
    (ci.BuildProject (fixtureWorld [] []) "/repo" ["/repo/Makefile", "/repo/go.mod"]).cmds =
      [⟨"go", ["build", "./..."], "/repo"⟩] ∧
    (Marker.buildCommand "/repo" .goMod).dir = "/repo" :=
  ci.BuildProject_first_marker (fixtureWorld [] []) "/repo"
    ["/repo/Makefile", "/repo/go.mod"] .goMod (by decide)
    (by intro m0 h; cases m0 <;> simp [Marker.rank] at h)

/-- C4, at the failing input. In a directory whose only marker is `setup.py`, `BuildProject`
dispatches the Python build command and succeeds while `RunTests` runs nothing and fails;
in a directory holding `setup.py` and `package.json`, `BuildProject` selects Python and
`RunTests` selects Node. -/
theorem ci.RunTests_misses_setup_py :
    (ci.BuildProject (fixtureWorld [] []) "/repo" ["/repo/setup.py"]).cmds =
      [⟨"python", ["setup.py", "install"], "/repo"⟩] ∧
    (ci.BuildProject (fixtureWorld [] []) "/repo" ["/repo/setup.py"]).err = none ∧
    (ci.RunTests (fixtureWorld [] []) "/repo" ["/repo/setup.py"]).cmds = [] ∧
    (ci.RunTests (fixtureWorld [] []) "/repo" ["/repo/setup.py"]).err =
      some "no test command available for this project" ∧
    (ci.BuildProject (fixtureWorld [] []) "/repo"
      ["/repo/setup.py", "/repo/package.json"]).cmds.map Toolchain.ofCmd = [some .Python] ∧
    (ci.RunTests (fixtureWorld [] []) "/repo"
      ["/repo/setup.py", "/repo/package.json"]).cmds.map Toolchain.ofCmd = [some .Node] := by
  decide

/-- Where `RunTests` and `BuildProject` do agree: in every directory in which `setup.py` is
absent or one of go.mod, Makefile, requirements.txt is present, both run a command or
neither does, and the commands belong to the same toolchain. -/
theorem ci.RunTests_agrees_with_BuildProject {σ : Type} (W : World σ) (dir : String) (s : σ)
    (h : Marker.present W s dir .setupPy = false ∨ Marker.present W s dir .goMod = true ∨
      Marker.present W s dir .makefile = true ∨
      Marker.present W s dir .requirementsTxt = true) :
    (ci.RunTests W dir s).cmds.map Toolchain.ofCmd =
      (ci.BuildProject W dir s).cmds.map Toolchain.ofCmd := by
  obtain ⟨e0, e1, e2, e3, _⟩ := Marker.present_eq W s dir
  rw [e0, e1, e2, e3] at h
  simp only [ci.RunTests, ci.BuildProject]
  repeat' split
  all_goals simp_all [Cmd.Run, Toolchain.ofCmd]

/-- C7. In a directory with none of the five markers, `BuildProject` fails with
`unsupported language or build system` and `RunTests` fails with
`no test command available for this project`, both without running a command; and when the
clone succeeds and leaves such a directory, the handler answers 500 at the build stage,
having called only clone and build and run only the `git clone` command. -/
theorem ci.BuildProject_no_marker :
    (∀ (σ : Type) (W : World σ) (dir : String) (s : σ),
      (∀ m : Marker, m.present W s dir = false) →
      ci.BuildProject W dir s = ⟨s, [], some "unsupported language or build system"⟩ ∧
      ci.RunTests W dir s = ⟨s, [], some "no test command available for this project"⟩) ∧
    (∀ (σ : Type) (W : World σ) (now : Int) (r : Request) (payload : String) (s : σ),
      r.method = "POST" → r.body = .ok payload → "repoURL".data <:+: payload.data →
      (ci.CloneRepository W "https://github.com/user/repo.git" (workDir now) s).err = none →
      (∀ m : Marker, m.present W
        (ci.CloneRepository W "https://github.com/user/repo.git" (workDir now) s).state
        (workDir now) = false) →
      (webhook.WebhookHandler (pipelineStages W) now r s).resp =
        ⟨500, "Build failed: unsupported language or build system\n"⟩ ∧
      (webhook.WebhookHandler (pipelineStages W) now r s).calls =
        [.CloneRepository "https://github.com/user/repo.git" (workDir now),
         .BuildProject (workDir now)] ∧
      (webhook.WebhookHandler (pipelineStages W) now r s).cmds =
        [⟨"git", ["clone", "https://github.com/user/repo.git", workDir now], ""⟩]) := by
  have key : ∀ (σ : Type) (W : World σ) (dir : String) (s : σ),
      (∀ m : Marker, m.present W s dir = false) →
      ci.BuildProject W dir s = ⟨s, [], some "unsupported language or build system"⟩ ∧
      ci.RunTests W dir s = ⟨s, [], some "no test command available for this project"⟩ := by
    intro σ W dir s h
    obtain ⟨e0, e1, e2, e3, e4⟩ := Marker.present_eq W s dir
    have h0 := h .goMod
    have h1 := h .makefile
    have h2 := h .requirementsTxt
    have h3 := h .setupPy
    have h4 := h .packageJson
    rw [e0] at h0
    rw [e1] at h1
    rw [e2] at h2
    rw [e3] at h3
    rw [e4] at h4
    simp [ci.BuildProject, ci.RunTests, h0, h1, h2, h3, h4]
  refine ⟨key, ?_⟩
  intro σ W now r payload s hm hb hc hclone hnone
  have hurl := webhook.parseRepoURL_of_contains payload hc
  have hbuild := (key σ W (workDir now) _ hnone).1
  simp only [workDir] at hclone hbuild ⊢
  simp [webhook.WebhookHandler, pipelineStages, hm, hb, hurl, hclone, hbuild, http.Error]
  simp [ci.CloneRepository, Cmd.Run]

/-- Witness for C7: the cloned repository holds only a README; the handler stops at the
build stage. -/
theorem ci.BuildProject_no_marker_witness :
    (ci.BuildProject (fixtureWorld [] []) "/repo" ["/repo/README.md"] =
        ⟨["/repo/README.md"], [], some "unsupported language or build system"⟩ ∧
      ci.RunTests (fixtureWorld [] []) "/repo" ["/repo/README.md"] =
        ⟨["/repo/README.md"], [], some "no test command available for this project"⟩) ∧
    ((webhook.WebhookHandler (pipelineStages (fixtureWorld ["README.md", "Dockerfile"] []))
        0 fixtureRequest []).resp =
        ⟨500, "Build failed: unsupported language or build system\n"⟩ ∧
      (webhook.WebhookHandler (pipelineStages (fixtureWorld ["README.md", "Dockerfile"] []))
        0 fixtureRequest []).calls =
        [.CloneRepository "https://github.com/user/repo.git" (workDir 0),
         .BuildProject (workDir 0)] ∧
      (webhook.WebhookHandler (pipelineStages (fixtureWorld ["README.md", "Dockerfile"] []))
        0 fixtureRequest []).cmds =
        [⟨"git", ["clone", "https://github.com/user/repo.git", workDir 0], ""⟩]) :=
  ⟨ci.BuildProject_no_marker.1 _ (fixtureWorld [] []) "/repo" ["/repo/README.md"]
      (by intro m; cases m <;> decide),
    ci.BuildProject_no_marker.2 _ (fixtureWorld ["README.md", "Dockerfile"] []) 0
      fixtureRequest "\x7b\"repoURL\":\"https://example.org/demo.git\"\x7d" []
      rfl rfl (by decide) (by decide) (by intro m; cases m <;> decide)⟩

/-! ## Image build and scan -/

theorem List.exists_append_suffix {α : Type} (a b c l : List α) :
    ∃ pre, a ++ (b ++ (c ++ l)) = pre ++ l :=
  ⟨a ++ (b ++ c), by simp⟩

theorem ci.CloneRepository_cmds {σ : Type} (W : World σ) (repoURL dir : String) (s : σ) :
    (ci.CloneRepository W repoURL dir s).cmds = [⟨"git", ["clone", repoURL, dir], ""⟩] := by
  simp [ci.CloneRepository, Cmd.Run]

theorem ci.BuildProject_cmds_name {σ : Type} (W : World σ) (dir : String) (s : σ) (c : Cmd)
    (h : c ∈ (ci.BuildProject W dir s).cmds) :
    c.name = "go" ∨ c.name = "make" ∨ c.name = "python" ∨ c.name = "npm" := by
  simp only [ci.BuildProject, Cmd.Run] at h
  repeat' split at h
  all_goals simp_all

theorem ci.RunTests_cmds_name {σ : Type} (W : World σ) (dir : String) (s : σ) (c : Cmd)
    (h : c ∈ (ci.RunTests W dir s).cmds) :
    c.name = "go" ∨ c.name = "make" ∨ c.name = "pytest" ∨ c.name = "npm" := by
  simp only [ci.RunTests, Cmd.Run] at h
  repeat' split at h
  all_goals simp_all

theorem docker.BuildDockerImage_absent {σ : Type} (W : World σ) (dir : String) (s : σ)
    (h : W.stat s (dir ++ "/Dockerfile") = false) :
    docker.BuildDockerImage W dir s = ⟨s, [], some "Dockerfile not found"⟩ := by
  simp [docker.BuildDockerImage, h]

theorem docker.BuildDockerImage_cmds_of_ok {σ : Type} (W : World σ) (dir : String) (s : σ)
    (h : (docker.BuildDockerImage W dir s).err = none) :
    (docker.BuildDockerImage W dir s).cmds =
      [⟨"docker", ["build", "-t", "myapp:latest", dir], ""⟩] := by
  simp only [docker.BuildDockerImage, Cmd.Run] at h ⊢
  repeat' split at h
  all_goals simp_all

theorem docker.RunTrivyScan_cmds {σ : Type} (W : World σ) (imageName : String) (s : σ) :
    (docker.RunTrivyScan W imageName s).cmds =
      [⟨"trivy", ["image", "--no-progress", imageName], ""⟩] := by
  simp only [docker.RunTrivyScan, Cmd.Run]
  split <;> rfl

/-- C8. In a directory without a `Dockerfile`, `BuildDockerImage` returns the error
`Dockerfile not found` and runs no command; and when clone, build and test succeed and
leave such a directory, the handler answers 500 naming the docker build stage, the calls
stop at the image build (no scan), and no `docker` or `trivy` command is run. -/
theorem docker.BuildDockerImage_no_Dockerfile :
    (∀ (σ : Type) (W : World σ) (dir : String) (s : σ),
      W.stat s (dir ++ "/Dockerfile") = false →
      docker.BuildDockerImage W dir s = ⟨s, [], some "Dockerfile not found"⟩) ∧
    (∀ (σ : Type) (W : World σ) (now : Int) (r : Request) (payload : String) (s : σ),
      r.method = "POST" → r.body = .ok payload → "repoURL".data <:+: payload.data →
      firstFailure (pipelineStages W) ((pipeline now).take 3) s = none →
      W.stat (stateAfter (pipelineStages W) ((pipeline now).take 3) s)
        (workDir now ++ "/Dockerfile") = false →
      (webhook.WebhookHandler (pipelineStages W) now r s).resp =
        ⟨500, "Docker build failed: Dockerfile not found\n"⟩ ∧
      (webhook.WebhookHandler (pipelineStages W) now r s).calls =
        [.CloneRepository "https://github.com/user/repo.git" (workDir now),
         .BuildProject (workDir now), .RunTests (workDir now),
         .BuildDockerImage (workDir now)] ∧
      (∀ c ∈ (webhook.WebhookHandler (pipelineStages W) now r s).cmds,
        c.name ≠ "docker" ∧ c.name ≠ "trivy")) := by
  refine ⟨fun σ W dir s h => docker.BuildDockerImage_absent W dir s h, ?_⟩
  intro σ W now r payload s hm hb hc hok habs
  have hurl := webhook.parseRepoURL_of_contains payload hc
  simp only [firstFailure, stateAfter, pipeline, List.take, Stages.exec, pipelineStages,
    workDir] at hok habs
  have hd := docker.BuildDockerImage_absent W _ _ habs
  simp only [webhook.WebhookHandler, hm, hb, hurl, pipelineStages, workDir]
  repeat' split
  all_goals simp_all [http.Error]
  rename_i herr
  refine ⟨by rw [← herr]; rfl, ?_⟩
  intro c hc
  rcases hc with hc | hc | hc
  · rw [ci.CloneRepository_cmds] at hc
    have h : c.name = "git" := by
      simp at hc
      rw [hc]
    rw [h]
    decide
  · have := ci.BuildProject_cmds_name W _ _ c hc
    rcases this with h | h | h | h <;> rw [h] <;> decide
  · have := ci.RunTests_cmds_name W _ _ c hc
    rcases this with h | h | h | h <;> rw [h] <;> decide

/-- Witness for C8: the cloned repository has `go.mod` but no `Dockerfile`; build and test
pass and the handler stops at the image build. -/
theorem docker.BuildDockerImage_no_Dockerfile_witness :
    docker.BuildDockerImage (fixtureWorld [] []) "/repo" ["/repo/go.mod"] =
      ⟨["/repo/go.mod"], [], some "Dockerfile not found"⟩ ∧
    ((webhook.WebhookHandler (pipelineStages (fixtureWorld ["go.mod"] [])) 0
        fixtureRequest []).resp = ⟨500, "Docker build failed: Dockerfile not found\n"⟩ ∧
      (webhook.WebhookHandler (pipelineStages (fixtureWorld ["go.mod"] [])) 0
        fixtureRequest []).calls =
        [.CloneRepository "https://github.com/user/repo.git" (workDir 0),
         .BuildProject (workDir 0), .RunTests (workDir 0), .BuildDockerImage (workDir 0)] ∧
      (∀ c ∈ (webhook.WebhookHandler (pipelineStages (fixtureWorld ["go.mod"] [])) 0
        fixtureRequest []).cmds, c.name ≠ "docker" ∧ c.name ≠ "trivy")) :=
  ⟨docker.BuildDockerImage_no_Dockerfile.1 _ (fixtureWorld [] []) "/repo" ["/repo/go.mod"]
      (by decide),
    docker.BuildDockerImage_no_Dockerfile.2 _ (fixtureWorld ["go.mod"] []) 0
      fixtureRequest "\x7b\"repoURL\":\"https://example.org/demo.git\"\x7d" []
      rfl rfl (by decide) (by decide) (by decide)⟩

theorem docker.scan_tag_and_cmds {σ : Type} (W : World σ) (now : Int) (r : Request)
    (s : σ) (tag : String)
    (h : StageCall.RunTrivyScan tag ∈ (webhook.WebhookHandler (pipelineStages W) now r s).calls) :
    tag = "myapp:latest" ∧
    (∃ pre, (webhook.WebhookHandler (pipelineStages W) now r s).cmds =
      pre ++ [⟨"docker", ["build", "-t", tag, workDir now], ""⟩,
        ⟨"trivy", ["image", "--no-progress", tag], ""⟩]) ∧
    (∀ (t : String) (s0 : σ),
      (docker.RunTrivyScan W t s0).cmds = [⟨"trivy", ["image", "--no-progress", t], ""⟩]) ∧
    (∀ (dir : String) (s0 : σ) (c : Cmd), c ∈ (docker.BuildDockerImage W dir s0).cmds →
      c = ⟨"docker", ["build", "-t", "myapp:latest", dir], ""⟩) := by
  have hscan := docker.RunTrivyScan_cmds W
  have hbuild : ∀ (dir : String) (s0 : σ) (c : Cmd),
      c ∈ (docker.BuildDockerImage W dir s0).cmds →
      c = ⟨"docker", ["build", "-t", "myapp:latest", dir], ""⟩ := by
    intro dir s0 c hc
    simp only [docker.BuildDockerImage, Cmd.Run] at hc
    repeat' split at hc
    all_goals simp_all
  refine ⟨?_, ?_, hscan, hbuild⟩
  · simp only [webhook.WebhookHandler] at h
    repeat' split at h
    all_goals simp_all
  · simp only [webhook.WebhookHandler, pipelineStages, workDir] at h ⊢
    repeat' split
    all_goals simp_all [docker.BuildDockerImage_cmds_of_ok]
    all_goals exact List.exists_append_suffix _ _ _ _


theorem docker.RunTrivyScan_eq {σ : Type} (W : World σ) (imageName : String) (s : σ) :
    docker.RunTrivyScan W imageName s =
      ⟨(W.run s ⟨"trivy", ["image", "--no-progress", imageName], ""⟩).1,
        [⟨"trivy", ["image", "--no-progress", imageName], ""⟩],
        (W.run s ⟨"trivy", ["image", "--no-progress", imageName], ""⟩).2.map
          (fun e => "Trivy scan failed: " ++ e)⟩ := by
  simp only [docker.RunTrivyScan, Cmd.Run]
  split <;> simp_all

theorem docker.BuildDockerImage_of_present {σ : Type} (W : World σ) (dir : String) (s : σ)
    (h : W.stat s (dir ++ "/Dockerfile") = true) :
    docker.BuildDockerImage W dir s =
      ⟨(W.run s ⟨"docker", ["build", "-t", "myapp:latest", dir], ""⟩).1,
        [⟨"docker", ["build", "-t", "myapp:latest", dir], ""⟩],
        (W.run s ⟨"docker", ["build", "-t", "myapp:latest", dir], ""⟩).2.map
          (fun e => "failed to build Docker image: " ++ e)⟩ := by
  simp only [docker.BuildDockerImage, Cmd.Run, h]
  repeat' split
  all_goals simp_all

theorem docker.BuildDockerImage_of_ok {σ : Type} (W : World σ) (dir : String) (s : σ)
    (h : (docker.BuildDockerImage W dir s).err = none) :
    W.stat s (dir ++ "/Dockerfile") = true ∧
    (W.run s ⟨"docker", ["build", "-t", "myapp:latest", dir], ""⟩).2 = none ∧
    (docker.BuildDockerImage W dir s).state =
      (W.run s ⟨"docker", ["build", "-t", "myapp:latest", dir], ""⟩).1 := by
  cases hs : W.stat s (dir ++ "/Dockerfile")
  · rw [docker.BuildDockerImage_absent W dir s hs] at h
    simp at h
  · rw [docker.BuildDockerImage_of_present W dir s hs] at h ⊢
    simpa using h

theorem webhook.WebhookHandler_scan_reached {σ : Type} (S : Stages σ) (now : Int)
    (r : Request) (s : σ) (tag : String)
    (h : StageCall.RunTrivyScan tag ∈ (webhook.WebhookHandler S now r s).calls) :
    r.method = "POST" ∧
    (∃ payload, r.body = .ok payload ∧
      webhook.parseRepoURL payload = "https://github.com/user/repo.git") ∧
    firstFailure S ((pipeline now).take 4) s = none := by
  simp only [webhook.WebhookHandler, workDir] at h
  simp only [firstFailure, pipeline, List.take, Stages.exec, workDir]
  repeat' split at h
  all_goals simp at h
  all_goals simp_all [webhook.parseRepoURL]

theorem webhook.WebhookHandler_after_four {σ : Type} (S : Stages σ) (now : Int)
    (r : Request) (payload : String) (s : σ)
    (hm : r.method = "POST") (hb : r.body = .ok payload)
    (hurl : webhook.parseRepoURL payload = "https://github.com/user/repo.git")
    (hfour : firstFailure S ((pipeline now).take 4) s = none) :
    (webhook.WebhookHandler S now r s).state =
      (S.RunTrivyScan "myapp:latest" (stateAfter S ((pipeline now).take 4) s)).state ∧
    (webhook.WebhookHandler S now r s).cmds = cmdsAfter S (pipeline now) s ∧
    (webhook.WebhookHandler S now r s).resp =
      (match (S.RunTrivyScan "myapp:latest" (stateAfter S ((pipeline now).take 4) s)).err with
        | none => ⟨200, "CI/CD pipeline executed successfully"⟩
        | some e => ⟨500, "Trivy scan failed: " ++ e ++ "\n"⟩) := by
  simp only [firstFailure, stateAfter, cmdsAfter, pipeline, List.take, Stages.exec,
    workDir] at hfour ⊢
  simp only [webhook.WebhookHandler, hm, hb, hurl]
  repeat' split
  all_goals simp_all [http.Error]

/-- C10. Whenever the handler calls the scan stage: the tag it passes is `myapp:latest`;
clone, build, test and image build have all succeeded, the `Dockerfile` was present and the
environment ran `docker build -t myapp:latest` on the working directory without error; the
state the handler leaves is the one the environment gives for running
`trivy image --no-progress` with that same tag right after the docker build, the response is
decided by the result of that trivy run, and the commands run are those of the five stages,
ending with the docker build and the trivy scan. `RunTrivyScan` is, for every tag and
state, the run of `trivy image --no-progress` with exactly the tag it is given (state,
command and wrapped error), and `BuildDockerImage`, when the `Dockerfile` is present, is the
run of `docker build -t myapp:latest` on its directory. -/
theorem docker.RunTrivyScan_fixed_tag {σ : Type} (W : World σ) (now : Int) (r : Request)
    (s : σ) (tag : String)
    (h : StageCall.RunTrivyScan tag ∈ (webhook.WebhookHandler (pipelineStages W) now r s).calls) :
    tag = "myapp:latest" ∧
    (∃ pre, (webhook.WebhookHandler (pipelineStages W) now r s).cmds =
      pre ++ [⟨"docker", ["build", "-t", tag, workDir now], ""⟩,
        ⟨"trivy", ["image", "--no-progress", tag], ""⟩]) ∧
    (∀ (t : String) (s0 : σ),
      (docker.RunTrivyScan W t s0).cmds = [⟨"trivy", ["image", "--no-progress", t], ""⟩]) ∧
    (∀ (dir : String) (s0 : σ) (c : Cmd), c ∈ (docker.BuildDockerImage W dir s0).cmds →
      c = ⟨"docker", ["build", "-t", "myapp:latest", dir], ""⟩) ∧
    (∀ (t : String) (s0 : σ),
      docker.RunTrivyScan W t s0 =
        ⟨(W.run s0 ⟨"trivy", ["image", "--no-progress", t], ""⟩).1,
          [⟨"trivy", ["image", "--no-progress", t], ""⟩],
          (W.run s0 ⟨"trivy", ["image", "--no-progress", t], ""⟩).2.map
            (fun e => "Trivy scan failed: " ++ e)⟩) ∧
    (∀ (dir : String) (s0 : σ), W.stat s0 (dir ++ "/Dockerfile") = true →
      docker.BuildDockerImage W dir s0 =
        ⟨(W.run s0 ⟨"docker", ["build", "-t", "myapp:latest", dir], ""⟩).1,
          [⟨"docker", ["build", "-t", "myapp:latest", dir], ""⟩],
          (W.run s0 ⟨"docker", ["build", "-t", "myapp:latest", dir], ""⟩).2.map
            (fun e => "failed to build Docker image: " ++ e)⟩) ∧
    firstFailure (pipelineStages W) ((pipeline now).take 4) s = none ∧
    W.stat (stateAfter (pipelineStages W) ((pipeline now).take 3) s)
      (workDir now ++ "/Dockerfile") = true ∧
    (W.run (stateAfter (pipelineStages W) ((pipeline now).take 3) s)
      ⟨"docker", ["build", "-t", tag, workDir now], ""⟩).2 = none ∧
    (webhook.WebhookHandler (pipelineStages W) now r s).state =
      (W.run
        (W.run (stateAfter (pipelineStages W) ((pipeline now).take 3) s)
          ⟨"docker", ["build", "-t", tag, workDir now], ""⟩).1
        ⟨"trivy", ["image", "--no-progress", tag], ""⟩).1 ∧
    (webhook.WebhookHandler (pipelineStages W) now r s).cmds =
      cmdsAfter (pipelineStages W) (pipeline now) s ∧
    (webhook.WebhookHandler (pipelineStages W) now r s).resp =
      (match (W.run
          (W.run (stateAfter (pipelineStages W) ((pipeline now).take 3) s)
            ⟨"docker", ["build", "-t", tag, workDir now], ""⟩).1
          ⟨"trivy", ["image", "--no-progress", tag], ""⟩).2 with
        | none => ⟨200, "CI/CD pipeline executed successfully"⟩
        | some e => ⟨500, "Trivy scan failed: Trivy scan failed: " ++ e ++ "\n"⟩) := by
  obtain ⟨htag, hpre, hscan, hbuild⟩ := docker.scan_tag_and_cmds W now r s tag h
  obtain ⟨hm, ⟨payload, hb, hurl⟩, hfour⟩ :=
    webhook.WebhookHandler_scan_reached (pipelineStages W) now r s tag h
  obtain ⟨hstate, hcmds, hresp⟩ :=
    webhook.WebhookHandler_after_four (pipelineStages W) now r payload s hm hb hurl hfour
  subst htag
  have hd : (docker.BuildDockerImage W (workDir now)
      (stateAfter (pipelineStages W) ((pipeline now).take 3) s)).err = none := by
    simp only [firstFailure, stateAfter, pipeline, List.take, Stages.exec, pipelineStages,
      workDir] at hfour ⊢
    repeat' split at hfour
    all_goals simp_all
  obtain ⟨hstat, hrun, hst⟩ := docker.BuildDockerImage_of_ok W _ _ hd
  have h4 : stateAfter (pipelineStages W) ((pipeline now).take 4) s =
      (W.run (stateAfter (pipelineStages W) ((pipeline now).take 3) s)
        ⟨"docker", ["build", "-t", "myapp:latest", workDir now], ""⟩).1 := by
    rw [← hst]
    simp only [stateAfter, pipeline, List.take, Stages.exec, pipelineStages]
  refine ⟨rfl, hpre, hscan, hbuild, docker.RunTrivyScan_eq W,
    fun dir s0 hp => docker.BuildDockerImage_of_present W dir s0 hp,
    hfour, hstat, hrun, ?_, hcmds, ?_⟩
  · rw [hstate, ← h4]
    simp only [pipelineStages, docker.RunTrivyScan_eq]
  · rw [hresp, ← h4]
    simp only [pipelineStages, docker.RunTrivyScan_eq]
    generalize (W.run _ ⟨"trivy", ["image", "--no-progress", "myapp:latest"], ""⟩).2 = o
    cases o
    · rfl
    · simp only [Option.map, Response.mk.injEq, true_and]
      rw [← String.append_assoc]
      rfl

/-- Witness for C10: on the fixture where every stage succeeds the scan is called with
`myapp:latest`, right after `docker build -t myapp:latest`, and the response is the one of
the successful trivy run. -/
theorem docker.RunTrivyScan_fixed_tag_witness :
    StageCall.RunTrivyScan "myapp:latest" ∈
      (webhook.WebhookHandler (pipelineStages (fixtureWorld ["go.mod", "Dockerfile"] []))
        0 fixtureRequest []).calls ∧
    (∃ pre, (webhook.WebhookHandler (pipelineStages (fixtureWorld ["go.mod", "Dockerfile"] []))
        0 fixtureRequest []).cmds =
      pre ++ [⟨"docker", ["build", "-t", "myapp:latest", workDir 0], ""⟩,
        ⟨"trivy", ["image", "--no-progress", "myapp:latest"], ""⟩]) ∧
    (webhook.WebhookHandler (pipelineStages (fixtureWorld ["go.mod", "Dockerfile"] []))
        0 fixtureRequest []).state = ["/tmp/repo-0/go.mod", "/tmp/repo-0/Dockerfile"] ∧
    (webhook.WebhookHandler (pipelineStages (fixtureWorld ["go.mod", "Dockerfile"] []))
        0 fixtureRequest []).resp = ⟨200, "CI/CD pipeline executed successfully"⟩ := by
  have h := docker.RunTrivyScan_fixed_tag (fixtureWorld ["go.mod", "Dockerfile"] []) 0
    fixtureRequest [] "myapp:latest" (by decide)
  exact ⟨by decide, h.2.1, h.2.2.2.2.2.2.2.2.2.1.trans (by decide),
    h.2.2.2.2.2.2.2.2.2.2.2.trans (by decide)⟩
